import Mathlib

/-!
# A verification model of the SAMMO symbolic prompt program engine

The repository ships only tutorial notebooks (`docs/tutorials/*.ipynb`);
the engine itself (`sammo.components`, `sammo.base`, `sammo.data`) is not
part of the sources.  Following the spec, we model the engine from the
spec's words and the notebook transcripts: an expression tree of
components (`GenerateText`, `Template`, `ForEach`, `Union`) evaluated
against a deterministic LLM backend, with `Output.run` materializing the
results into a tabular structure (rows of input/output pairs plus a
side-channel of constants), optionally grouping rows into minibatches.
The notebook cell that checks the `OPENAI_API_KEY` environment variable
and builds the runner is present in the sources and is translated
directly.
-/

namespace Sammo

/-- A runtime value: Python `None`, a string, or a list of values. -/
inductive Value where
  | vnone : Value
  | vstr : String → Value
  | vlist : List Value → Value

/-- Error-handling modes that appear in the printed expression trees. -/
inductive OnError where
  | raise : OnError
  | empty_result : OnError

/-- Template syntax, Handlebars-like: literal text, the `\x7b\x7binput\x7d\x7d`
placeholder, the `\x7b\x7bthis\x7d\x7d` placeholder of an each-block, a named
placeholder such as `\x7b\x7breason\x7d\x7d`, sequencing, and an
`\x7b\x7b#each inputs\x7d\x7d...\x7b\x7b/each\x7d\x7d` block. -/
inductive TplPart where
  | lit : String → TplPart
  | inputPh : TplPart
  | thisPh : TplPart
  | namedPh : String → TplPart
  | seq : TplPart → TplPart → TplPart
  | eachInputs : TplPart → TplPart

/-- Modelled from the spec: "an expression tree of composable components
(e.g., text-generation node, template node, iteration node)", which the
sources only exercise from the notebooks.  The constructor arguments of
`generateText` follow the field list printed by the quickstart notebook
(`child`, `name`, `system_prompt`, `history`, `seed`, `randomness`,
`max_tokens`, `json_mode`, `on_error`). -/
inductive Component where
  | text : String → Component
  | template : TplPart → List (String × Component) → Component
  | generateText : Component → Option String → Option String → Option Component →
      Nat → Rat → Option Nat → Bool → OnError → Component
  | forEach : String → Component → Component → Component
  | union : List Component → Component

/-- The request a `GenerateText` node sends to the backend: the rendered
prompt together with every generation parameter that identifies the call
(the notebooks note that identical configurations share a locally cached
answer, so the backend is a function of exactly these fields). -/
structure Request where
  prompt : String
  system_prompt : Option String
  history : Option Value
  seed : Nat
  randomness : Rat
  max_tokens : Option Nat
  json_mode : Bool

/-- An LLM backend: a deterministic map from requests to completions.
Determinism models the per-configuration request cache described in the
component tutorial. -/
def Backend : Type := Request → String

/-- The evaluation context: the current row's input value, the cursor of
an enclosing each-block, the input rows of the current minibatch, and the
environment of `ForEach` bindings. -/
structure Ctx where
  input : Value
  cursor : Value
  inputs : List Value
  env : List (String × Value)

mutual

/-- Render a `Value` as display text. -/
def valueToString : Value → String
  | .vnone => "None"
  | .vstr s => s
  | .vlist xs => "[" ++ valueListToString xs ++ "]"

/-- Render the elements of a list value, comma-separated. -/
def valueListToString : List Value → String
  | [] => ""
  | [x] => valueToString x
  | x :: xs => valueToString x ++ ", " ++ valueListToString xs

end

/-- Look up a name in an association list of bindings. -/
def lookupEnv (n : String) : List (String × Value) → Option Value
  | [] => none
  | (m, v) :: rest => if m = n then some v else lookupEnv n rest

/-- A named placeholder resolves against the template's own (evaluated)
keyword children first, then against the `ForEach` environment. -/
def lookupName (n : String) (kw env : List (String × Value)) : Option Value :=
  match lookupEnv n kw with
  | some v => some v
  | none => lookupEnv n env

/-- Modelled from the spec: the Handlebars-like "template string syntax
... used inside text-generation nodes", rendered before the LLM call.
`kw` holds the values of the template's evaluated keyword children. -/
def render (ctx : Ctx) (kw : List (String × Value)) : TplPart → String
  | .lit s => s
  | .inputPh => valueToString ctx.input
  | .thisPh => valueToString ctx.cursor
  | .namedPh n =>
    match lookupName n kw ctx.env with
    | some v => valueToString v
    | none => ""
  | .seq a b => render ctx kw a ++ render ctx kw b
  | .eachInputs body =>
    String.join (ctx.inputs.map (fun x => render { ctx with cursor := x } kw body))

mutual

/-- Modelled from the spec: the lazy call-graph evaluator of the
expression tree, absent from the sources.  A text node is its string; a
template node renders after evaluating its keyword children; a
`GenerateText` node renders its child into a prompt and calls the
backend; a `ForEach` node evaluates its sequence first and then its body
once per element with the loop variable bound; a `Union` node collects
its children's values into a list. -/
def eval (llm : Backend) (ctx : Ctx) : Component → Value
  | .text s => .vstr s
  | .template tpl kwargs => .vstr (render ctx (evalKwargs llm ctx kwargs) tpl)
  | .generateText child _nm sp hist seed rnd mt jm _oe =>
    .vstr (llm { prompt := valueToString (eval llm ctx child),
                 system_prompt := sp,
                 history := match hist with
                   | none => none
                   | some h => some (eval llm ctx h),
                 seed := seed, randomness := rnd, max_tokens := mt,
                 json_mode := jm })
  | .forEach n sq op =>
    match eval llm ctx sq with
    | .vlist xs =>
      .vlist (xs.map (fun x => eval llm { ctx with env := (n, x) :: ctx.env } op))
    | v => .vlist [eval llm { ctx with env := (n, v) :: ctx.env } op]
  | .union cs => .vlist (evalList llm ctx cs)

/-- Evaluate the children of a `Union` node in order. -/
def evalList (llm : Backend) (ctx : Ctx) : List Component → List Value
  | [] => []
  | c :: cs => eval llm ctx c :: evalList llm ctx cs

/-- Evaluate a template's keyword children into named values. -/
def evalKwargs (llm : Backend) (ctx : Ctx) : List (String × Component) → List (String × Value)
  | [] => []
  | (n, c) :: rest => (n, eval llm ctx c) :: evalKwargs llm ctx rest

end

/-- Modelled from the spec: the `Output` component that "wraps a
metaprompt and returns a table".  Its printed configuration fields are
`minibatch_size` and `on_error`. -/
structure Output where
  child : Component
  minibatch_size : Nat
  on_error : OnError

/-- The `Output` constructor with its default arguments as printed by the
quickstart notebook: `minibatch_size = 1`, `on_error = raise`. -/
def Output.mkDefault (child : Component) : Output :=
  { child := child, minibatch_size := 1, on_error := .raise }

/-- The `GenerateText` constructor with its default arguments as printed
by the quickstart notebook: `name = None`, `system_prompt = None`,
`history = None`, `seed = 0`, `randomness = 0`, `max_tokens = None`,
`json_mode = False`, `on_error = empty_result`. -/
def GenerateText.mkDefault (child : Component) : Component :=
  .generateText child none none none 0 0 none false .empty_result

/-- Modelled from the spec: "a tabular result type holding one row per
input with an output column and a side-channel of constants", as returned
by `Output.run`.  `requests` counts the LLM requests issued, one per
minibatch. -/
structure RunResult where
  rows : List (Value × Value)
  constants : Option (List (String × Value))
  requests : Nat

/-- The evaluation context of one minibatch: `input` is the (single) row
in the unbatched case, `inputs` lists every row of the minibatch. -/
def batchCtx (b : List Value) : Ctx :=
  { input := b.headD .vnone, cursor := .vnone, inputs := b, env := [] }

/-- The evaluation context of a single input row. -/
def rowCtx (x : Value) : Ctx :=
  { input := x, cursor := .vnone, inputs := [x], env := [] }

/-- The per-row results parsed from one minibatch response: a list value
contributes its elements, any other value is a single result. -/
def parsedResults : Value → List Value
  | .vlist xs => xs
  | v => [v]

/-- The reported exception text when a minibatch response does not parse
into one result per input row, as shown in the minibatching notebook. -/
def mbLengthError (need got : Nat) : String :=
  "Minibatch results do not have right length (need: " ++ toString need ++
    ", got: " ++ toString got ++ ")"

/-- Modelled from the spec: run the program once over one minibatch of
rows (one LLM request).  In minibatch mode the parsed results must align
one-to-one with the input rows, "a minibatch response whose parsed result
count does not match the number of input rows raises a reported
exception"; in the unbatched case the whole value is the single row's
output. -/
def runMinibatch (llm : Backend) (prog : Component) (useMB : Bool) (b : List Value) :
    Except String (List (Value × Value)) :=
  let v := eval llm (batchCtx b) prog
  if useMB then
    let rs := parsedResults v
    if rs.length = b.length then .ok (b.zip rs)
    else .error (mbLengthError b.length rs.length)
  else .ok (b.map (fun x => (x, v)))

/-- Run every minibatch in order, collecting the rows and counting one
LLM request per minibatch; the first failing minibatch aborts the run. -/
def processBatches (llm : Backend) (prog : Component) (useMB : Bool) :
    List (List Value) → Except String (List (Value × Value) × Nat)
  | [] => .ok ([], 0)
  | b :: bs =>
    match runMinibatch llm prog useMB b with
    | .error e => .error e
    | .ok rows =>
      match processBatches llm prog useMB bs with
      | .error e => .error e
      | .ok (rest, k) => .ok (rows ++ rest, k + 1)

/-- Split a list into consecutive chunks of `m` elements (the last chunk
may be shorter); the first argument is recursion fuel. -/
def chunksF {α : Type} : Nat → Nat → List α → List (List α)
  | _, _, [] => []
  | 0, _, _ :: _ => []
  | f + 1, m, x :: xs => (x :: xs).take m :: chunksF f m ((x :: xs).drop m)

/-- Modelled from the spec: "minibatching groups several rows into one
request" — the input rows partitioned into minibatches of `m` rows. -/
def chunks {α : Type} (m : Nat) (xs : List α) : List (List α) :=
  chunksF xs.length m xs

/-- Modelled from the spec: `Output.run` evaluates the wrapped program
over the input rows, minibatch by minibatch, and materializes the results
"into a tabular input/output structure" carrying the constants
side-channel. -/
def Output.run (llm : Backend) (o : Output) (data : List Value)
    (consts : Option (List (String × Value))) : Except String RunResult :=
  match processBatches llm o.child (decide (1 < o.minibatch_size))
      (chunks o.minibatch_size data) with
  | .error e => .error e
  | .ok (rows, k) => .ok { rows := rows, constants := consts, requests := k }

/-- Modelled from the spec: `Output.run` called without input data runs
the program once over a single `None` input row with no constants. -/
def Output.runNoData (llm : Backend) (o : Output) : Except String RunResult :=
  o.run llm [.vnone] none

/-- Python-style display of an optional string field. -/
def showOptStr : Option String → String
  | none => "None"
  | some s => "\'" ++ s ++ "\'"

/-- Python-style display of a boolean field. -/
def showBool : Bool → String
  | false => "False"
  | true => "True"

/-- Python-style display of an optional numeric field. -/
def showOptNat : Option Nat → String
  | none => "None"
  | some n => toString n

/-- Display of the `on_error` configuration strings. -/
def showOnError : OnError → String
  | .raise => "\'raise\'"
  | .empty_result => "\'empty_result\'"

/-- Display of the `randomness` field (an integer prints bare). -/
def showRat (q : Rat) : String :=
  if q.den = 1 then toString q.num else toString q.num ++ "/" ++ toString q.den

/-- Modelled from the spec: printing a component renders the nested
expression tree with every configuration field, as shown by
`print(spp_hello_world)` in the quickstart notebook.  Only the layout of
`GenerateText` and plain-text children is evidenced there; other nodes
print as an elided constructor call. -/
def showComponent (ind : String) : Component → String
  | .text s => "\'" ++ s ++ "\'"
  | .template _ _ => "Template(...)"
  | .forEach _ _ _ => "ForEach(...)"
  | .union _ => "Union(...)"
  | .generateText child nm sp hist seed rnd mt jm oe =>
    "GenerateText(\n" ++
    ind ++ "  child = " ++ showComponent (ind ++ "  ") child ++ ",\n" ++
    ind ++ "  name = " ++ showOptStr nm ++ ",\n" ++
    ind ++ "  system_prompt = " ++ showOptStr sp ++ ",\n" ++
    ind ++ "  history = " ++ (match hist with
      | none => "None"
      | some h => showComponent (ind ++ "  ") h) ++ ",\n" ++
    ind ++ "  seed = " ++ toString seed ++ ",\n" ++
    ind ++ "  randomness = " ++ showRat rnd ++ ",\n" ++
    ind ++ "  max_tokens = " ++ showOptNat mt ++ ",\n" ++
    ind ++ "  json_mode = " ++ showBool jm ++ ",\n" ++
    ind ++ "  on_error = " ++ showOnError oe ++ "\n" ++
    ind ++ ")"

/-- Printing an `Output` component, as shown in the quickstart notebook. -/
def showOutput (o : Output) : String :=
  "Output(\n" ++
  "  child = " ++ showComponent "  " o.child ++ ",\n" ++
  "  minibatch_size = " ++ toString o.minibatch_size ++ ",\n" ++
  "  on_error = " ++ showOnError o.on_error ++ "\n" ++
  ")"

/-- The runner configuration built by the notebooks' setup cell. -/
structure Runner where
  model_id : String
  api_key : String
  cache : String
  timeout : Nat

/-- The environment setup of the quickstart notebook: raise a ValueError
unless `OPENAI_API_KEY` is set, then build the `OpenAIChat` runner whose
`api_config` carries the key and whose cache path falls back to
`cache.tsv`. -/
def setupEnv (env : String → Option String) : Except String Runner :=
  match env "OPENAI_API_KEY" with
  | none => .error "Please set the environment variable \'OPENAI_API_KEY\'."
  | some key =>
    .ok { model_id := "gpt-3.5-turbo", api_key := key,
          cache := (env "CACHE_FILE").getD "cache.tsv", timeout := 30 }

/-! ## Helper lemmas -/

/-- Evaluating a union's children is mapping `eval` over them. -/
theorem evalList_eq_map (llm : Backend) (ctx : Ctx) (cs : List Component) :
    evalList llm ctx cs = cs.map (eval llm ctx) := by
  induction cs with
  | nil => rfl
  | cons c cs ih => simp [evalList, ih]

/-- Splitting into chunks of one yields one singleton chunk per element. -/
theorem chunksF_one {α : Type} :
    ∀ (f : Nat) (xs : List α), xs.length ≤ f →
      chunksF f 1 xs = xs.map (fun x => [x]) := by
  intro f
  induction f with
  | zero =>
    intro xs hx
    cases xs with
    | nil => rfl
    | cons x t => simp at hx
  | succ f ih =>
    intro xs hx
    cases xs with
    | nil => rfl
    | cons x t =>
      have hx' : t.length ≤ f := by simp at hx; omega
      have hstep : chunksF (f + 1) 1 (x :: t) = [x] :: chunksF f 1 t := rfl
      rw [hstep, ih t hx']
      rfl

/-- `chunks 1` is the singleton partition. -/
theorem chunks_one {α : Type} (xs : List α) :
    chunks 1 xs = xs.map (fun x => [x]) :=
  chunksF_one xs.length xs (Nat.le_refl _)

/-- The number of chunks of size `m` of a list of `L` elements is
`(L + m - 1) / m`, the ceiling of `L / m`. -/
theorem chunksF_length {α : Type} (m : Nat) (hm : 0 < m) :
    ∀ (f : Nat) (xs : List α), xs.length ≤ f →
      (chunksF f m xs).length = (xs.length + m - 1) / m := by
  have h0 : (0 + m - 1) / m = 0 := Nat.div_eq_of_lt (by omega)
  intro f
  induction f with
  | zero =>
    intro xs hx
    cases xs with
    | nil => simp only [chunksF, List.length_nil]; omega
    | cons x t => simp at hx
  | succ f ih =>
    intro xs hx
    cases xs with
    | nil => simp only [chunksF, List.length_nil]; omega
    | cons x t =>
      have hxlen : t.length + 1 ≤ f + 1 := by simpa using hx
      have hstep : chunksF (f + 1) m (x :: t) =
          (x :: t).take m :: chunksF f m ((x :: t).drop m) := rfl
      have hdrop : ((x :: t).drop m).length = t.length + 1 - m := by
        simp [List.length_drop]
      have hrec := ih ((x :: t).drop m) (by rw [hdrop]; omega)
      rw [hstep, List.length_cons, hrec, hdrop, List.length_cons]
      rcases Nat.lt_or_ge (t.length + 1) m with hlt | hge
      · have h1 : t.length + 1 - m = 0 := by omega
        have h3 : t.length + 1 + m - 1 = t.length + m := by omega
        rw [h1, h0, h3, Nat.add_div_right _ hm, Nat.div_eq_of_lt (by omega)]
      · have h1 : t.length + 1 + m - 1 = (t.length + 1 - m + m - 1) + m := by omega
        rw [h1, Nat.add_div_right _ hm]

/-- Chunk count of the minibatch partition. -/
theorem chunks_length {α : Type} (m : Nat) (hm : 0 < m) (xs : List α) :
    (chunks m xs).length = (xs.length + m - 1) / m :=
  chunksF_length m hm xs.length xs (Nat.le_refl _)

/-- A successful minibatch loop issues one request per minibatch. -/
theorem processBatches_ok_count (llm : Backend) (prog : Component) (u : Bool) :
    ∀ (bs : List (List Value)) (rows : List (Value × Value)) (k : Nat),
      processBatches llm prog u bs = .ok (rows, k) → k = bs.length := by
  intro bs
  induction bs with
  | nil =>
    intro rows k h
    have hstep : processBatches llm prog u [] =
        (.ok ([], 0) : Except String (List (Value × Value) × Nat)) := rfl
    rw [hstep] at h
    cases h
    rfl
  | cons b bs ih =>
    intro rows k h
    rw [show processBatches llm prog u (b :: bs) =
        (match runMinibatch llm prog u b with
         | .error e => .error e
         | .ok rs =>
           match processBatches llm prog u bs with
           | .error e => .error e
           | .ok (rest, k) => .ok (rs ++ rest, k + 1)) from rfl] at h
    cases hrm : runMinibatch llm prog u b with
    | error e => rw [hrm] at h; cases h
    | ok r =>
      rw [hrm] at h
      cases hpb : processBatches llm prog u bs with
      | error e => rw [hpb] at h; cases h
      | ok p =>
        obtain ⟨rest, k'⟩ := p
        rw [hpb] at h
        cases h
        rw [ih rest k' hpb]
        rfl

/-- The unbatched loop over singleton chunks produces one row per input,
pairing each input with the program's value on that row. -/
theorem processBatches_singletons (llm : Backend) (prog : Component) (xs : List Value) :
    processBatches llm prog false (xs.map (fun x => [x])) =
      .ok (xs.map (fun x => (x, eval llm (rowCtx x) prog)), xs.length) := by
  induction xs with
  | nil => rfl
  | cons x t ih => simp [processBatches, runMinibatch, ih, batchCtx, rowCtx]

/-- `Output.run` with the default `minibatch_size` of one evaluates the
program once per input row and returns one row per input, in order. -/
theorem run_unbatched (llm : Backend) (prog : Component) (oe : OnError)
    (consts : Option (List (String × Value))) (data : List Value) :
    Output.run llm ⟨prog, 1, oe⟩ data consts =
      .ok { rows := data.map (fun x => (x, eval llm (rowCtx x) prog)),
            constants := consts, requests := data.length } := by
  have h1 : chunks 1 data = data.map (fun x => [x]) := chunks_one data
  simp [Output.run, h1, processBatches_singletons]

/-- In minibatch mode, if some minibatch's parsed results do not align
with its rows, the loop aborts with the reported length error of the
first such minibatch. -/
theorem processBatches_fail (llm : Backend) (prog : Component) :
    ∀ (bs : List (List Value)),
      (∃ b ∈ bs, (parsedResults (eval llm (batchCtx b) prog)).length ≠ b.length) →
      ∃ b ∈ bs, (parsedResults (eval llm (batchCtx b) prog)).length ≠ b.length ∧
        processBatches llm prog true bs =
          .error (mbLengthError b.length
            (parsedResults (eval llm (batchCtx b) prog)).length) := by
  intro bs
  induction bs with
  | nil => rintro ⟨b, hb, _⟩; cases hb
  | cons b bs ih =>
    rintro ⟨b', hb', hne⟩
    by_cases hb : (parsedResults (eval llm (batchCtx b) prog)).length = b.length
    · have hb'mem : b' ∈ bs := by
        rcases List.mem_cons.mp hb' with rfl | hmem
        · exact absurd hb hne
        · exact hmem
      obtain ⟨c, hc, hcne, hpb⟩ := ih ⟨b', hb'mem, hne⟩
      refine ⟨c, List.mem_cons_of_mem _ hc, hcne, ?_⟩
      have hrm : runMinibatch llm prog true b =
          .ok (b.zip (parsedResults (eval llm (batchCtx b) prog))) := by
        simp [runMinibatch, hb]
      simp only [processBatches, hrm, hpb]
    · refine ⟨b, List.mem_cons_self _ _, hb, ?_⟩
      have hrm : runMinibatch llm prog true b =
          .error (mbLengthError b.length
            (parsedResults (eval llm (batchCtx b) prog)).length) := by
        simp [runMinibatch, hb]
      simp only [processBatches, hrm]

/-! ## The claims -/

/-- C1: for every run of an `Output` component in minibatch mode, if some
minibatch's parsed results do not number one per input row, the run
raises the exception "Minibatch results do not have right length" with
the needed and obtained counts, and no result table is returned. -/
theorem minibatch_wrong_length_raises
    (llm : Backend) (prog : Component) (m : Nat) (oe : OnError)
    (data : List Value) (consts : Option (List (String × Value)))
    (hm : 1 < m)
    (hfail : ∃ b ∈ chunks m data,
      (parsedResults (eval llm (batchCtx b) prog)).length ≠ b.length) :
    ∃ b ∈ chunks m data,
      (parsedResults (eval llm (batchCtx b) prog)).length ≠ b.length ∧
      Output.run llm ⟨prog, m, oe⟩ data consts =
        .error (mbLengthError b.length
          (parsedResults (eval llm (batchCtx b) prog)).length) := by
  obtain ⟨b, hb, hne, hpb⟩ := processBatches_fail llm prog (chunks m data) hfail
  refine ⟨b, hb, hne, ?_⟩
  have hdec : decide (1 < m) = true := by simpa using hm
  simp only [Output.run, hdec, hpb]

/-- The backend, program and rows of the minibatching notebook's failing
run: ten rows in one minibatch, one parsed result. -/
def w1llm : Backend := fun _ => "yes"

/-- The labeling program of the failing minibatch run: one plain
`GenerateText` whose whole completion is a single result. -/
def w1prog : Component := GenerateText.mkDefault (.text "labeling prompt")

/-- Ten input rows, as in `mydata.sample(10, seed=42)`. -/
def w1data : List Value := List.replicate 10 (Value.vstr "q")

/-- Witness for C1: ten rows with `minibatch_size = 10` and one parsed
result raise exactly "Minibatch results do not have right length
(need: 10, got: 1)". -/
theorem minibatch_wrong_length_raises_witness :
    (1 < 10) ∧
    (∃ b ∈ chunks 10 w1data,
      (parsedResults (eval w1llm (batchCtx b) w1prog)).length ≠ b.length) ∧
    (∃ b ∈ chunks 10 w1data,
      (parsedResults (eval w1llm (batchCtx b) w1prog)).length ≠ b.length ∧
      Output.run w1llm ⟨w1prog, 10, .raise⟩ w1data none =
        .error (mbLengthError b.length
          (parsedResults (eval w1llm (batchCtx b) w1prog)).length)) ∧
    Output.run w1llm ⟨w1prog, 10, .raise⟩ w1data none =
      .error "Minibatch results do not have right length (need: 10, got: 1)" := by
  have hc : chunks 10 w1data = [w1data] := rfl
  have hfail : ∃ b ∈ chunks 10 w1data,
      (parsedResults (eval w1llm (batchCtx b) w1prog)).length ≠ b.length := by
    refine ⟨w1data, ?_, by decide⟩
    rw [hc]
    exact List.mem_cons_self _ _
  exact ⟨by decide, hfail,
    minibatch_wrong_length_raises w1llm w1prog 10 .raise w1data none (by decide) hfail,
    rfl⟩

/-- C2: `Output(program).run(runner, inputs)` on a non-empty input list
returns a table with exactly one row per input, pairing each unchanged
input with the program's output on that row, in input order, and carrying
the constants side-channel. -/
theorem run_one_row_per_input (llm : Backend) (prog : Component) (oe : OnError)
    (consts : Option (List (String × Value))) (data : List Value)
    (hne : data ≠ []) :
    Output.run llm ⟨prog, 1, oe⟩ data consts =
      .ok { rows := data.map (fun x => (x, eval llm (rowCtx x) prog)),
            constants := consts, requests := data.length } ∧
    (data.map (fun x => (x, eval llm (rowCtx x) prog))).length = data.length :=
  ⟨run_unbatched llm prog oe consts data, by simp⟩

/-- A backend echoing its prompt, for the C2 witness. -/
def w2llm : Backend := fun r => "ans:" ++ r.prompt

/-- Two input rows, as in the country example of the quickstart. -/
def w2data : List Value := [Value.vstr "Switzerland", Value.vstr "Morocco"]

/-- Witness for C2: a concrete two-row run returns two rows in input
order with unchanged inputs. -/
theorem run_one_row_per_input_witness :
    w2data ≠ [] ∧
    Output.run w2llm ⟨GenerateText.mkDefault (.text "hi"), 1, .raise⟩ w2data none =
      .ok { rows := [(Value.vstr "Switzerland", Value.vstr "ans:hi"),
                     (Value.vstr "Morocco", Value.vstr "ans:hi")],
            constants := none, requests := 2 } := by
  have hne : w2data ≠ [] := by simp [w2data]
  exact ⟨hne,
    ((run_one_row_per_input w2llm (GenerateText.mkDefault (.text "hi"))
        .raise none w2data hne).1).trans (by rfl)⟩

/-- C3: a run with `minibatch_size = m` over `n` rows partitions them
into `ceil(n / m)` minibatches, each evaluated as one LLM request: the
request count of a successful run is `(n + m - 1) / m`. -/
theorem minibatch_request_count (llm : Backend) (prog : Component)
    (m : Nat) (oe : OnError) (data : List Value)
    (consts : Option (List (String × Value))) (r : RunResult)
    (hm : 0 < m)
    (h : Output.run llm ⟨prog, m, oe⟩ data consts = .ok r) :
    r.requests = (data.length + m - 1) / m := by
  unfold Output.run at h
  cases hpb : processBatches llm prog (decide (1 < m)) (chunks m data) with
  | error e => simp only [hpb] at h; cases h
  | ok p =>
    obtain ⟨rows, k⟩ := p
    simp only [hpb] at h
    cases h
    show k = _
    rw [processBatches_ok_count llm prog (decide (1 < m)) (chunks m data) rows k hpb,
      chunks_length m hm data]

/-- A trivial backend for the C3 witness. -/
def w3llm : Backend := fun _ => ""

/-- A program whose response parses into five results per minibatch. -/
def w3prog : Component := .union (List.replicate 5 (.text "a"))

/-- Ten input rows for the C3 witness. -/
def w3data : List Value := List.replicate 10 Value.vnone

/-- The table of the C3 witness run: ten rows from two requests. -/
def w3res : RunResult :=
  { rows := List.replicate 10 (Value.vnone, Value.vstr "a"),
    constants := none, requests := 2 }

/-- Witness for C3: ten rows at `minibatch_size = 5` issue exactly two
requests, `(10 + 5 - 1) / 5 = 2`. -/
theorem minibatch_request_count_witness :
    0 < 5 ∧
    Output.run w3llm ⟨w3prog, 5, .raise⟩ w3data none = .ok w3res ∧
    w3res.requests = (w3data.length + 5 - 1) / 5 :=
  ⟨by decide, rfl,
    minibatch_request_count w3llm w3prog 5 .raise w3data none w3res (by decide) rfl⟩

/-- C4: a `ForEach(name, seq, op)` node evaluates `seq` first, then `op`
once per element of the resulting sequence with `name` bound to that
element; its value is the list of per-element results in sequence order,
one per element. -/
theorem forEach_lazy_iteration (llm : Backend) (ctx : Ctx) (n : String)
    (sq op : Component) (xs : List Value)
    (h : eval llm ctx sq = .vlist xs) :
    eval llm ctx (.forEach n sq op) =
      .vlist (xs.map (fun x => eval llm { ctx with env := (n, x) :: ctx.env } op)) ∧
    (xs.map (fun x => eval llm { ctx with env := (n, x) :: ctx.env } op)).length
      = xs.length := by
  constructor
  · have hstep : eval llm ctx (.forEach n sq op) =
        (match eval llm ctx sq with
         | .vlist xs =>
           .vlist (xs.map (fun x => eval llm { ctx with env := (n, x) :: ctx.env } op))
         | v => .vlist [eval llm { ctx with env := (n, v) :: ctx.env } op]) := rfl
    rw [hstep, h]
  · simp

/-- A trivial backend for the C4 witness. -/
def w4llm : Backend := fun _ => ""

/-- A sequence of two known fruits for the C4 witness. -/
def w4sq : Component := .union [.text "Apple", .text "Mango"]

/-- A body that renders the loop variable, for the C4 witness. -/
def w4op : Component := .template (.namedPh "fruit") []

/-- Witness for C4: iterating over a two-element sequence binds "fruit"
to each element in order and yields one result per element. -/
theorem forEach_lazy_iteration_witness :
    eval w4llm (rowCtx .vnone) w4sq = .vlist [.vstr "Apple", .vstr "Mango"] ∧
    eval w4llm (rowCtx .vnone) (.forEach "fruit" w4sq w4op) =
      .vlist ([Value.vstr "Apple", Value.vstr "Mango"].map
        (fun x => eval w4llm
          { rowCtx .vnone with env := ("fruit", x) :: (rowCtx .vnone).env } w4op)) ∧
    eval w4llm (rowCtx .vnone) (.forEach "fruit" w4sq w4op) =
      .vlist [.vstr "Apple", .vstr "Mango"] := by
  have h4 := forEach_lazy_iteration w4llm (rowCtx .vnone) "fruit" w4sq w4op
    [.vstr "Apple", .vstr "Mango"] rfl
  exact ⟨rfl, h4.1, rfl⟩

/-- C5: the Handlebars-like template syntax is rendered before the LLM
call: the input placeholder becomes the current row's input value, a
named placeholder becomes the value of the corresponding child node, an
each-inputs block is expanded once per input row of the minibatch, and a
text-generation node whose child is a template sends the rendered string
as its prompt. -/
theorem template_rendering (llm : Backend) (ctx : Ctx)
    (kw : List (String × Value)) (body tpl : TplPart)
    (kwargs : List (String × Component)) (nm sp : Option String)
    (hist : Option Component) (seed : Nat) (rnd : Rat)
    (mt : Option Nat) (jm : Bool) (oe : OnError) :
    render ctx kw .inputPh = valueToString ctx.input ∧
    (∀ (n : String) (v : Value), lookupName n kw ctx.env = some v →
      render ctx kw (.namedPh n) = valueToString v) ∧
    render ctx kw (.eachInputs body) =
      String.join (ctx.inputs.map (fun x => render { ctx with cursor := x } kw body)) ∧
    eval llm ctx (.generateText (.template tpl kwargs) nm sp hist seed rnd mt jm oe) =
      .vstr (llm { prompt := render ctx (evalKwargs llm ctx kwargs) tpl,
                   system_prompt := sp,
                   history := match hist with
                     | none => none
                     | some hc => some (eval llm ctx hc),
                   seed := seed, randomness := rnd, max_tokens := mt,
                   json_mode := jm }) := by
  refine ⟨rfl, ?_, rfl, ?_⟩
  · intro n v hv
    simp [render, hv]
  · cases hist with
    | none => rfl
    | some hc => rfl

/-- C6: environment setup raises a ValueError with the message "Please
set the environment variable OPENAI_API_KEY" when the variable is
missing, and otherwise builds the runner with the key in its api_config. -/
theorem api_key_setup (env : String → Option String) :
    (env "OPENAI_API_KEY" = none →
      setupEnv env = .error "Please set the environment variable \'OPENAI_API_KEY\'.") ∧
    (∀ k : String, env "OPENAI_API_KEY" = some k →
      setupEnv env = .ok { model_id := "gpt-3.5-turbo", api_key := k,
                           cache := (env "CACHE_FILE").getD "cache.tsv",
                           timeout := 30 }) := by
  constructor
  · intro h
    simp [setupEnv, h]
  · intro k hk
    simp [setupEnv, hk]

/-- C8: within a run, the backend's answer is a function of the node's
request configuration alone, so a `Union` of `N` identical
`GenerateText` nodes yields the same answer `N` times; two nodes
differing only in `seed` can evaluate to different outputs. -/
theorem identical_nodes_share_result :
    (∀ (llm : Backend) (ctx : Ctx) (g : Component) (N : Nat),
      eval llm ctx (.union (List.replicate N g)) =
        .vlist (List.replicate N (eval llm ctx g))) ∧
    (∃ llm : Backend, ∃ s : String,
      eval llm (rowCtx .vnone)
          (.generateText (.text s) none none none 0 0 none false .empty_result) ≠
        eval llm (rowCtx .vnone)
          (.generateText (.text s) none none none 1 0 none false .empty_result)) := by
  constructor
  · intro llm ctx g N
    have hstep : eval llm ctx (.union (List.replicate N g)) =
        .vlist (evalList llm ctx (List.replicate N g)) := rfl
    rw [hstep, evalList_eq_map, List.map_replicate]
  · refine ⟨fun r => toString r.seed, "Generate the name of 1 fruit.", ?_⟩
    intro h
    have h' : Value.vstr "0" = Value.vstr "1" := h
    injection h' with hs
    exact absurd hs (by decide)

set_option maxRecDepth 10000 in
/-- C9: the public constructor defaults are observable by printing the
expression tree: `Output` defaults to `minibatch_size = 1` and
`on_error = raise`, `GenerateText` to `name = None`,
`system_prompt = None`, `history = None`, `seed = 0`, `randomness = 0`,
`max_tokens = None`, `json_mode = False`, `on_error = empty_result`,
exactly as the quickstart notebook prints for `spp_hello_world`. -/
theorem constructor_defaults_printed :
    (∀ c : Component,
      Output.mkDefault c = { child := c, minibatch_size := 1, on_error := .raise } ∧
      GenerateText.mkDefault c =
        .generateText c none none none 0 0 none false .empty_result) ∧
    showOutput (Output.mkDefault (GenerateText.mkDefault (.text "Hello World!"))) =
      "Output(\n  child = GenerateText(\n    child = \'Hello World!\',\n    name = None,\n    system_prompt = None,\n    history = None,\n    seed = 0,\n    randomness = 0,\n    max_tokens = None,\n    json_mode = False,\n    on_error = \'empty_result\'\n  ),\n  minibatch_size = 1,\n  on_error = \'raise\'\n)" := by
  exact ⟨fun c => ⟨rfl, rfl⟩, by decide⟩

/-- C10: `Output(program).run(runner)` with no input data returns a table
with exactly one row whose input is `None`, whose output is the
program's single result, and whose constants are `None`. -/
theorem run_no_input_single_row (llm : Backend) (prog : Component) :
    Output.runNoData llm (Output.mkDefault prog) =
      .ok { rows := [(Value.vnone, eval llm (rowCtx .vnone) prog)],
            constants := none, requests := 1 } := by
  have h := run_unbatched llm prog .raise none [.vnone]
  simpa [Output.runNoData, Output.mkDefault] using h

end Sammo
